import Mathlib

/-!
Verification of the python-worker-service, rag-indexing-service and
rag-query-service of the ApeironDev backend, against their natural-language
specification.  Python functions from the source are shallowly embedded as
executable Lean definitions; file-system paths, subprocess outcomes and
Firestore documents are made explicit.
-/

namespace ApeironDev

/-! ## POSIX path model

Used by `execute_auth_task` (controllers.py): destinations for downloaded
manifest files are computed with pathlib's `/` operator, and the entrypoint
is checked with `root / entrypoint_file.lstrip('/')`.

A path is an absolute-flag plus a component list.  Like `pathlib.PurePath`,
parsing drops empty components and `"."` but keeps `".."`; joining with an
absolute right operand discards the left operand. -/

/-- Split a character list on `'/'` into raw (possibly empty) components. -/
def splitSlashAux : List Char → List Char → List (List Char)
  | [], acc => [acc.reverse]
  | c :: rest, acc =>
      if c = '/' then acc.reverse :: splitSlashAux rest []
      else splitSlashAux rest (c :: acc)

/-- Path components of a character list: split on `'/'`, dropping empty
components and `"."` (as `pathlib` does), keeping `".."`. -/
def filteredComps (l : List Char) : List String :=
  ((splitSlashAux l []).filter (fun c => (c != []) && (c != ['.']))).map String.mk

/-- Path components of a string. -/
def pathComps (s : String) : List String := filteredComps s.data

/-- Whether a path string is absolute (begins with `'/'`). -/
def headIsSlash : List Char → Bool
  | [] => false
  | c :: _ => c == '/'

/-- A parsed POSIX path: absolute flag plus components. -/
structure PPath where
  absolute : Bool
  comps : List String
deriving DecidableEq, Repr

/-- Parse a string into a `PPath`. -/
def parsePPath (s : String) : PPath := ⟨headIsSlash s.data, pathComps s⟩

/-- `pathlib`'s `/` operator: if the right operand is absolute it replaces
the left operand entirely; otherwise components are appended.  No `".."`
resolution happens at join time. -/
def joinPy (p : PPath) (rel : String) : PPath :=
  let r := parsePPath rel
  if r.absolute then r else ⟨p.absolute, p.comps ++ r.comps⟩

/-- Lexical normalization as performed by the OS when the file is actually
created: each `".."` component removes the preceding component (at the root
of an absolute path it is dropped). -/
def normComps (l : List String) : List String :=
  l.foldl (fun acc c => if c = ".." then acc.dropLast else acc ++ [c]) []

/-- Normalize a `PPath`. -/
def normalizePPath (p : PPath) : PPath := ⟨p.absolute, normComps p.comps⟩

/-- Whether `p` lies within `root` (component-wise prefix, same kind). -/
def withinRoot (root p : PPath) : Bool :=
  root.absolute == p.absolute && root.comps.isPrefixOf p.comps

/-- Python `s.lstrip('/')`: drop every leading `'/'`. -/
def lstripSlash (s : String) : String := String.mk (s.data.dropWhile (· = '/'))

/-- The destination path for one workspace-manifest entry in
`execute_auth_task` (controllers.py lines 177-188): entries with an empty
`r2_object_key` or `file_path` are skipped; every other entry is written to
`workspace_exec_dir / file_path` with no rejection of escaping paths. -/
def processManifestEntry (root : PPath) (r2ObjectKey filePath : String) :
    Option PPath :=
  if r2ObjectKey = "" ∨ filePath = "" then none
  else some (joinPy root filePath)

/-- The path on which `execute_auth_task` checks that the entrypoint exists
(controllers.py line 190): `workspace_exec_dir / entrypoint_file.lstrip('/')`. -/
def checkedEntrypointPath (root : PPath) (entrypointFile : String) : PPath :=
  joinPy root (lstripSlash entrypointFile)

/-- The path the interpreter actually runs: `_execute_python_script_in_dir`
passes the raw `entrypoint_file` to `subprocess.run` with `cwd` set to the
temp root, so the OS resolves a relative path against `cwd` and uses an
absolute path as-is — which is exactly `joinPy`. -/
def executedScriptPath (cwd : PPath) (entrypointFile : String) : PPath :=
  joinPy cwd entrypointFile

/-! ## Sandbox runner classification (`_execute_python_code_direct`,
`_execute_python_script_in_dir`, controllers.py lines 22-68) -/

/-- Outcome of `subprocess.run` as observed by the worker: normal completion
with exit code and captured streams, `TimeoutExpired`, or any other
exception during spawn/setup. -/
inductive SpawnResult where
  | completed (returncode : Int) (stdout stderr : String)
  | timedOut
  | raised (msg : String)
deriving DecidableEq, Repr

/-- The `(output, error_details, status_code)` triple returned by the
execution helpers. -/
structure ExecOutcome where
  output : Option String
  errorDetails : Option String
  code : Nat
deriving DecidableEq, Repr

/-- Shallow embedding of `_execute_python_code_direct` (controllers.py
lines 22-43).  `timeoutSec` is `DEFAULT_EXECUTION_TIMEOUT_SEC`. -/
def executePythonCodeDirect (timeoutSec : Nat) (res : SpawnResult) :
    ExecOutcome :=
  match res with
  | .completed rc out err =>
      if rc = 0 then ⟨some out, none, 0⟩
      else ⟨some out, some (if err = "" then out else err), 1⟩
  | .timedOut =>
      ⟨none, some ("Execution timed out after " ++ toString timeoutSec
        ++ " seconds."), 2⟩
  | .raised msg =>
      ⟨none, some ("Internal worker error: " ++ msg), 3⟩

/-! ## Job documents and Firestore updates -/

/-- Python `s.startswith(p)` on our string model. -/
def strStartsWith (s p : String) : Bool := p.data.isPrefixOf s.data

/-- A Firestore update dictionary issued by the worker.  A `none` field is a
key absent from the dictionary (left untouched by the update); `error` is
doubly optional because the final update stores an explicit `null` on
success (`some none`). -/
structure JobUpdate where
  status : Option String
  output : Option String
  error : Option (Option String)
  failure_type : Option String
  processing_started_at : Option String
  completed_at : Option String
  updated_at : Option String
deriving DecidableEq, Repr

/-- The non-terminal status updates issued by the handlers, e.g.
`{"status": initial_status, "updated_at": now_iso8601()}` (controllers.py
lines 122, 156, 165, 202): only `status` and `updated_at` are present. -/
def initialStatusUpdate (status ts : String) : JobUpdate :=
  ⟨some status, none, none, none, none, none, some ts⟩

/-- Shallow embedding of `_build_final_update_data` (controllers.py lines
87-109).  `ts` is the single `now_iso8601()` sample taken at entry; it is
used for `updated_at`, `processing_started_at` and `completed_at` alike. -/
def buildFinalUpdateData (execStatusCode : Nat) (output errorDetails : Option String)
    (currentStatus : String) (ts : String) : JobUpdate :=
  { status := some (if execStatusCode = 0 then "completed" else "failed")
    output := some (output.getD "")
    error := some (if execStatusCode = 0 then none
      else some (if errorDetails.getD "" = "" then "Unknown error"
        else errorDetails.getD ""))
    failure_type :=
      if execStatusCode = 2 then some "timeout"
      else if execStatusCode = 1 then some "user_code_error"
      else if execStatusCode = 3 then some "worker_internal_error"
      else none
    processing_started_at :=
      if strStartsWith currentStatus "processing" then some ts else none
    completed_at := some ts
    updated_at := some ts }

/-- A job document in the metadata store. -/
structure JobDoc where
  status : String
  output : Option String
  error : Option String
  failure_type : Option String
  processing_started_at : Option String
  completed_at : Option String
  updated_at : Option String
deriving DecidableEq, Repr

/-- Firestore `transaction.update`: merge the fields present in the update
dictionary into the document, leaving absent fields untouched. -/
def applyUpdate (doc : JobDoc) (u : JobUpdate) : JobDoc :=
  { status := u.status.getD doc.status
    output := match u.output with | some o => some o | none => doc.output
    error := u.error.getD doc.error
    failure_type := match u.failure_type with
      | some f => some f | none => doc.failure_type
    processing_started_at := match u.processing_started_at with
      | some t => some t | none => doc.processing_started_at
    completed_at := match u.completed_at with
      | some t => some t | none => doc.completed_at
    updated_at := match u.updated_at with
      | some t => some t | none => doc.updated_at }

/-! ## Direct-execution task handler (`execute_direct_task`,
controllers.py lines 111-136) -/

/-- Observable result of one `/execute` delivery: the HTTP status returned
to the queue, whether the sandbox runner was invoked, and the job document
after the handler finished. -/
structure HandlerResult where
  httpStatus : Nat
  runnerInvoked : Bool
  doc : JobDoc
deriving DecidableEq, Repr

/-- Shallow embedding of `execute_direct_task`.  `doc0` is the job document
at delivery time; `clientOk` models Firestore-client availability;
`initialWriteOk` / `finalWriteOk` model the success of the two transactional
writes; `res` is the subprocess outcome; `ts1`, `ts2` are the two
`now_iso8601()` samples.  Mirrors the source exactly: no status is read at
entry; a failed initial write raises HTTP 500; a failed final write is
logged and swallowed (`pass`), and the handler still returns HTTP 200. -/
def executeDirectTask (doc0 : JobDoc) (clientOk initialWriteOk finalWriteOk : Bool)
    (res : SpawnResult) (timeoutSec : Nat) (ts1 ts2 : String) : HandlerResult :=
  if clientOk then
    if initialWriteOk then
      let doc1 := applyUpdate doc0 (initialStatusUpdate "processing_direct" ts1)
      let outcome := executePythonCodeDirect timeoutSec res
      let finalData := buildFinalUpdateData outcome.code outcome.output
        outcome.errorDetails "processing_direct" ts2
      let doc2 := if finalWriteOk then applyUpdate doc1 finalData else doc1
      ⟨200, true, doc2⟩
    else ⟨500, false, doc0⟩
  else ⟨503, false, doc0⟩

/-! ## Indexing worker (`process_files_for_indexing`,
rag-indexing-service/main.py lines 160-223) -/

/-- Python `s.endswith(suf)` on our string model. -/
def strEndsWith (s suf : String) : Bool := suf.data.isSuffixOf s.data

/-- The code-file extension allow-list (main.py line 180). -/
def CODE_EXTS : List String :=
  [".py", ".js", ".ts", ".jsx", ".tsx", ".go", ".java", ".cpp", ".c",
   ".rs", ".rb", ".php"]

/-- Whether a file path passes the extension filter. -/
def isCodeFile (filePath : String) : Bool :=
  CODE_EXTS.any (fun ext => strEndsWith filePath ext)

/-- ASCII whitespace as stripped by Python `str.strip()`. -/
def isPySpace (c : Char) : Bool :=
  c = ' ' || c = '\t' || c = '\n' || c = '\r'
    || c = Char.ofNat 11 || c = Char.ofNat 12

/-- Python `not s.strip()`: the string is empty or all whitespace. -/
def stripIsEmpty (s : String) : Bool := s.data.all isPySpace

/-- One row of the LanceDB `CodeSnippet` schema, with the embedding vector
abstracted by a type parameter. -/
structure CodeSnippet (V : Type) where
  vector : V
  text : String
  file_path : String
  workspace_id : String

/-- The rows that `process_files_for_indexing` adds for one manifest file
(main.py lines 177-221): files failing the extension filter, failing to
download, or whose content strips to empty contribute no rows; every other
file contributes exactly one row whose `text` is the whole file content and
whose `vector` is `embed_documents([file_content])[0]`.  `body` is `none`
when the R2 download raised. -/
def rowsForFile {V : Type} (embed : String → V) (workspaceId filePath : String)
    (body : Option String) : List (CodeSnippet V) :=
  if isCodeFile filePath then
    match body with
    | none => []
    | some content =>
        if stripIsEmpty content then []
        else [⟨embed content, content, filePath, workspaceId⟩]
  else []

/-! ## Query retrieval core (`codebase_search_tool`,
rag-query-service/agent/tools.py lines 64-83) -/

/-- One search hit as consumed by the hybrid-search combiner. -/
structure SearchRow where
  content : String
  file_path : String
deriving DecidableEq, Repr

/-- One step of the dict comprehension
`{res['content']: res for res in vector_results + keyword_results}`:
an existing key keeps its position but its value is overwritten; a new key
is appended. -/
def insertRow (acc : List SearchRow) (r : SearchRow) : List SearchRow :=
  if acc.any (fun a => a.content = r.content) then
    acc.map (fun a => if a.content = r.content then r else a)
  else acc ++ [r]

/-- `.values()` of the dict comprehension keyed on `content`. -/
def dedupeByContent (rows : List SearchRow) : List SearchRow :=
  rows.foldl insertRow []

/-- The hybrid-search portion of `codebase_search_tool` (tools.py lines
64-80): the keyword (FTS) search may raise; the exception is caught, the
skip is logged once (second component `true`), `keyword_results` is set to
`[]`, and the combined results are deduplicated by `content`. -/
def codebaseSearchCombine (vectorResults : List SearchRow)
    (keywordOutcome : Except String (List SearchRow)) :
    List SearchRow × Bool :=
  match keywordOutcome with
  | .ok keywordResults => (dedupeByContent (vectorResults ++ keywordResults), false)
  | .error _ => (dedupeByContent (vectorResults ++ []), true)

/-! ## ISO-8601 timestamp formatting (time_utils.py)

The `strftime` numeric fields are modelled as fixed-width zero-padded
decimal fields, which matches `%Y`/`%m`/`%d`/`%H`/`%M`/`%S`/`%f` on every
value a Python `datetime` can hold in those fields (year ≤ 9999,
microsecond ≤ 999999). -/

/-- A UTC `datetime`'s fields. -/
structure PyDateTime where
  year : Nat
  month : Nat
  day : Nat
  hour : Nat
  minute : Nat
  second : Nat
  microsecond : Nat
deriving DecidableEq, Repr

/-- `n` rendered as exactly `w` decimal digits, zero-padded. -/
def padDigits (w n : Nat) : List Char :=
  (List.range w).reverse.map (fun i => Nat.digitChar (n / 10 ^ i % 10))

/-- The character list produced by
`dt.strftime('%Y-%m-%dT%H:%M:%S.%f')` (time_utils.py lines 25 and 48). -/
def strftimeIsoMicro (dt : PyDateTime) : List Char :=
  padDigits 4 dt.year ++ '-' :: padDigits 2 dt.month ++ '-' :: padDigits 2 dt.day
    ++ 'T' :: padDigits 2 dt.hour ++ ':' :: padDigits 2 dt.minute
    ++ ':' :: padDigits 2 dt.second ++ '.' :: padDigits 6 dt.microsecond

/-- Shallow embedding of `datetime_to_iso8601` (time_utils.py lines 28-48):
`dt_utc.strftime('%Y-%m-%dT%H:%M:%S.%f')[:-3] + 'Z'`, where `dt` already
holds the UTC field values.  The Python slice `[:-3]` is `take (len - 3)`. -/
def datetime_to_iso8601 (dt : PyDateTime) : String :=
  String.mk ((strftimeIsoMicro dt).take ((strftimeIsoMicro dt).length - 3)
    ++ ['Z'])

/-- Shallow embedding of `now_iso8601` (time_utils.py lines 9-25): the same
formatting expression applied to `datetime.now(timezone.utc)`, whose UTC
field values are `nowUtc`. -/
def now_iso8601 (nowUtc : PyDateTime) : String :=
  String.mk ((strftimeIsoMicro nowUtc).take ((strftimeIsoMicro nowUtc).length - 3)
    ++ ['Z'])

/-- Modelled from the spec: the JavaScript `toISOString()` convention
`YYYY-MM-DDTHH:mm:ss.sssZ` — four-digit year, two-digit date/time fields,
exactly three fractional digits holding the milliseconds
(`microsecond / 1000`), suffixed `Z`. -/
def toISOStringJS (dt : PyDateTime) : String :=
  String.mk (padDigits 4 dt.year ++ '-' :: padDigits 2 dt.month
    ++ '-' :: padDigits 2 dt.day ++ 'T' :: padDigits 2 dt.hour
    ++ ':' :: padDigits 2 dt.minute ++ ':' :: padDigits 2 dt.second
    ++ '.' :: padDigits 3 (dt.microsecond / 1000) ++ ['Z'])

/-! ## Path lemmas -/

/-- Stripping leading slashes does not change the filtered component list:
each dropped `'/'` only removes an empty component. -/
theorem filter_splitSlash_dropWhile (l : List Char) :
    (splitSlashAux (l.dropWhile (· = '/')) []).filter
        (fun c => (c != []) && (c != ['.']))
      = (splitSlashAux l []).filter (fun c => (c != []) && (c != ['.'])) := by
  induction l with
  | nil => rfl
  | cons c rest ih =>
    by_cases hc : c = '/'
    · subst hc
      have hd : (('/' :: rest).dropWhile (· = '/')) = rest.dropWhile (· = '/') := by
        simp [List.dropWhile_cons]
      have hs : splitSlashAux ('/' :: rest) [] = [] :: splitSlashAux rest [] := rfl
      rw [hd, ih, hs, List.filter_cons]
      simp
    · have hd : ((c :: rest).dropWhile (· = '/')) = c :: rest := by
        simp [List.dropWhile_cons, hc]
      rw [hd]

/-- `pathComps` is invariant under Python's `lstrip('/')`. -/
theorem pathComps_lstripSlash (s : String) :
    pathComps (lstripSlash s) = pathComps s := by
  show filteredComps (s.data.dropWhile (· = '/')) = filteredComps s.data
  unfold filteredComps
  rw [filter_splitSlash_dropWhile]

/-- After `lstrip('/')` the remaining string never begins with `'/'`. -/
theorem headIsSlash_dropWhile (l : List Char) :
    headIsSlash (l.dropWhile (· = '/')) = false := by
  induction l with
  | nil => rfl
  | cons c rest ih =>
    by_cases hc : c = '/'
    · subst hc
      rw [List.dropWhile_cons]
      simpa using ih
    · rw [List.dropWhile_cons]
      simp [headIsSlash, hc]

/-- Claim C1 (code evaluation): the workspace handler does not reject
manifest paths that escape the temporary root.  A `file_path` of
`"../evil.py"` is written to `root/../evil.py`, which normalizes to a path
outside the root, and an absolute `file_path` of `"/etc/cron.d/x"` replaces
the root entirely. -/
theorem c1_manifest_path_escape_eval :
    processManifestEntry ⟨true, ["tmp", "job_j1"]⟩ "workspaces/w/files/a" "../evil.py"
      = some ⟨true, ["tmp", "job_j1", "..", "evil.py"]⟩
    ∧ withinRoot ⟨true, ["tmp", "job_j1"]⟩
        (normalizePPath (joinPy ⟨true, ["tmp", "job_j1"]⟩ "../evil.py")) = false
    ∧ processManifestEntry ⟨true, ["tmp", "job_j1"]⟩ "workspaces/w/files/b" "/etc/cron.d/x"
      = some ⟨true, ["etc", "cron.d", "x"]⟩
    ∧ withinRoot ⟨true, ["tmp", "job_j1"]⟩ ⟨true, ["etc", "cron.d", "x"]⟩ = false := by
  refine ⟨by decide, by decide, by decide, by decide⟩

/-- Claim C7: for every entrypoint_file beginning with `'/'`, the path on
which the existence check is performed (`root / entrypoint_file.lstrip('/')`)
and the path the interpreter resolves (raw `entrypoint_file` against the
child's working directory) are different; for a temp root of the shape
`/tmp/job_x`, the executed path `/etc/passwd` lies outside the root. -/
theorem c7_checked_vs_executed (root : PPath) (entry : String)
    (habs : root.absolute = true) (hcomps : root.comps ≠ [])
    (hslash : headIsSlash entry.data = true) :
    checkedEntrypointPath root entry ≠ executedScriptPath root entry
    ∧ withinRoot ⟨true, ["tmp", "job_x"]⟩
        (executedScriptPath ⟨true, ["tmp", "job_x"]⟩ "/etc/passwd") = false := by
  constructor
  · intro heq
    have hchk : checkedEntrypointPath root entry
        = ⟨root.absolute, root.comps ++ pathComps entry⟩ := by
      unfold checkedEntrypointPath joinPy parsePPath
      have h1 : headIsSlash (lstripSlash entry).data = false := by
        simpa [lstripSlash] using headIsSlash_dropWhile entry.data
      rw [pathComps_lstripSlash]
      simp [h1]
    have hexe : executedScriptPath root entry = ⟨true, pathComps entry⟩ := by
      unfold executedScriptPath joinPy parsePPath
      simp [hslash]
    rw [hchk, hexe, habs] at heq
    have hlen := congrArg (fun p : PPath => p.comps.length) heq
    simp only [List.length_append] at hlen
    have : root.comps.length = 0 := by omega
    exact hcomps (List.length_eq_zero.mp this)
  · decide

/-- Witness for C7 at a concrete root and entrypoint. -/
theorem c7_checked_vs_executed_witness :
    checkedEntrypointPath ⟨true, ["tmp", "job_x"]⟩ "/etc/passwd"
      ≠ executedScriptPath ⟨true, ["tmp", "job_x"]⟩ "/etc/passwd"
    ∧ withinRoot ⟨true, ["tmp", "job_x"]⟩
        (executedScriptPath ⟨true, ["tmp", "job_x"]⟩ "/etc/passwd") = false :=
  c7_checked_vs_executed ⟨true, ["tmp", "job_x"]⟩ "/etc/passwd" rfl
    (by decide) (by decide)

/-! ## Runner classification and terminal updates -/

/-- Claim C4: exit code 0 yields classification ok (status code 0) with the
captured stdout; any non-zero exit code yields user_error (1) with error
text stderr, falling back to stdout when stderr is empty; wall-clock expiry
yields timeout (2) with error text exactly
`"Execution timed out after N seconds."`; a spawn/setup exception yields
internal (3). -/
theorem c4_runner_classification (timeoutSec : Nat) :
    (∀ out err, executePythonCodeDirect timeoutSec (.completed 0 out err)
      = ⟨some out, none, 0⟩)
    ∧ (∀ rc out err, rc ≠ 0 →
        executePythonCodeDirect timeoutSec (.completed rc out err)
          = ⟨some out, some (if err = "" then out else err), 1⟩)
    ∧ executePythonCodeDirect timeoutSec .timedOut
      = ⟨none, some ("Execution timed out after " ++ toString timeoutSec
          ++ " seconds."), 2⟩
    ∧ (∀ msg, executePythonCodeDirect timeoutSec (.raised msg)
      = ⟨none, some ("Internal worker error: " ++ msg), 3⟩) := by
  refine ⟨fun out err => rfl, fun rc out err h => ?_, rfl, fun msg => rfl⟩
  simp [executePythonCodeDirect, h]

/-- Witness for C4 with the default 30-second timeout: a non-zero exit with
empty stderr falls back to stdout, and the timeout message is literal. -/
theorem c4_runner_classification_witness :
    executePythonCodeDirect 30 (.completed 1 "boom" "")
      = ⟨some "boom", some "boom", 1⟩
    ∧ executePythonCodeDirect 30 .timedOut
      = ⟨none, some "Execution timed out after 30 seconds.", 2⟩ := by
  refine ⟨?_, ?_⟩
  · simpa using (c4_runner_classification 30).2.1 1 "boom" "" (by decide)
  · exact (c4_runner_classification 30).2.2.1

/-- Claim C5: for every classification code the runner can produce
(0..3), the terminal update has a non-null output (empty string when
nothing was captured), an error value that is non-null exactly when the
status is failed (and explicit null on completed), and a failure_type
present exactly when failed, drawn from
{user_code_error, timeout, worker_internal_error}. -/
theorem c5_terminal_update_fields (code : Nat) (out err : Option String)
    (cur ts : String) (h : code ≤ 3) :
    (buildFinalUpdateData code out err cur ts).output = some (out.getD "")
    ∧ ((buildFinalUpdateData code out err cur ts).status = some "completed"
        → (buildFinalUpdateData code out err cur ts).error = some none)
    ∧ ((∃ e, (buildFinalUpdateData code out err cur ts).error = some (some e))
        ↔ (buildFinalUpdateData code out err cur ts).status = some "failed")
    ∧ ((buildFinalUpdateData code out err cur ts).failure_type ≠ none
        ↔ (buildFinalUpdateData code out err cur ts).status = some "failed")
    ∧ (∀ ft, (buildFinalUpdateData code out err cur ts).failure_type = some ft
        → ft = "user_code_error" ∨ ft = "timeout" ∨ ft = "worker_internal_error") := by
  interval_cases code <;> simp [buildFinalUpdateData]

/-- Witness for C5 at classification timeout (code 2) with no captured
output. -/
theorem c5_terminal_update_fields_witness :
    ((buildFinalUpdateData 2 none (some "boom") "processing_direct" "T").failure_type
        ≠ none
      ↔ (buildFinalUpdateData 2 none (some "boom") "processing_direct" "T").status
        = some "failed")
    ∧ (buildFinalUpdateData 2 none (some "boom") "processing_direct" "T").output
        = some "" :=
  ⟨(c5_terminal_update_fields 2 none (some "boom") "processing_direct" "T"
      (by decide)).2.2.2.1,
   (c5_terminal_update_fields 2 none (some "boom") "processing_direct" "T"
      (by decide)).1⟩

/-- Counterexample to claim C6: the transition into the processing_direct
status issued at handler entry (controllers.py line 122) carries only
status and updated_at; it does not set processing_started_at even though it
is a transition into a processing_* status on a fresh job where the field
is unset. -/
theorem c6_processing_started_at_counterexample :
    (initialStatusUpdate "processing_direct" "T1").processing_started_at = none
    ∧ strStartsWith "processing_direct" "processing" = true
    ∧ (initialStatusUpdate "processing_direct" "T1").status
      = some "processing_direct" := by
  refine ⟨rfl, by decide, rfl⟩

/-- Claim C6 as amended: every transition sets updated_at; terminal updates
additionally set completed_at and set failure_type exactly when the status
is failed; but transitions into processing_* statuses set only status and
updated_at — processing_started_at is written only as part of the terminal
update, when the status the handler tracked starts with "processing". -/
theorem c6_transition_timestamps (st ts : String) (code : Nat)
    (out err : Option String) (cur ts2 : String) (h : code ≤ 3) :
    (initialStatusUpdate st ts).updated_at = some ts
    ∧ (initialStatusUpdate st ts).processing_started_at = none
    ∧ (initialStatusUpdate st ts).completed_at = none
    ∧ (buildFinalUpdateData code out err cur ts2).updated_at = some ts2
    ∧ (buildFinalUpdateData code out err cur ts2).completed_at = some ts2
    ∧ ((buildFinalUpdateData code out err cur ts2).status = some "failed"
        ↔ (buildFinalUpdateData code out err cur ts2).failure_type ≠ none)
    ∧ (buildFinalUpdateData code out err cur ts2).processing_started_at
      = (if strStartsWith cur "processing" then some ts2 else none) := by
  interval_cases code <;> simp [initialStatusUpdate, buildFinalUpdateData]

/-- Witness for C6 (amended) at a user_code_error terminal update following
processing_direct. -/
theorem c6_transition_timestamps_witness :
    (initialStatusUpdate "processing_direct" "T1").updated_at = some "T1"
    ∧ (initialStatusUpdate "processing_direct" "T1").processing_started_at = none
    ∧ (initialStatusUpdate "processing_direct" "T1").completed_at = none
    ∧ (buildFinalUpdateData 1 (some "o") (some "e") "processing_direct" "T2").updated_at
      = some "T2"
    ∧ (buildFinalUpdateData 1 (some "o") (some "e") "processing_direct" "T2").completed_at
      = some "T2"
    ∧ ((buildFinalUpdateData 1 (some "o") (some "e") "processing_direct" "T2").status
          = some "failed"
        ↔ (buildFinalUpdateData 1 (some "o") (some "e") "processing_direct" "T2").failure_type
          ≠ none)
    ∧ (buildFinalUpdateData 1 (some "o") (some "e") "processing_direct" "T2").processing_started_at
      = (if strStartsWith "processing_direct" "processing" then some "T2" else none) :=
  c6_transition_timestamps "processing_direct" "T1" 1 (some "o") (some "e")
    "processing_direct" "T2" (by decide)

/-! ## Direct-task handler behavior -/

/-- Counterexample to claim C2: delivering a task for a job whose document
is already terminal (status completed) is not a no-op — the handler invokes
the sandbox runner again and overwrites the terminal document (here the
replayed run times out, flipping the job from completed to failed). -/
theorem c2_replay_counterexample :
    (executeDirectTask ⟨"completed", some "hi", none, none, some "P", some "C", some "U"⟩
        true true true .timedOut 30 "T1" "T2").runnerInvoked = true
    ∧ (executeDirectTask ⟨"completed", some "hi", none, none, some "P", some "C", some "U"⟩
        true true true .timedOut 30 "T1" "T2").doc.status = "failed"
    ∧ (executeDirectTask ⟨"completed", some "hi", none, none, some "P", some "C", some "U"⟩
        true true true .timedOut 30 "T1" "T2").doc.output = some "" := by
  refine ⟨by decide, by decide, by decide⟩

/-- Claim C2 as amended: the handler never reads the job status at entry;
for every job document — terminal or not — a delivery with working
Firestore writes invokes the sandbox runner and overwrites the document
with the new run's status and timestamps. -/
theorem c2_replay_reexecutes (doc0 : JobDoc) (res : SpawnResult)
    (timeoutSec : Nat) (ts1 ts2 : String) :
    (executeDirectTask doc0 true true true res timeoutSec ts1 ts2).runnerInvoked = true
    ∧ (executeDirectTask doc0 true true true res timeoutSec ts1 ts2).doc.updated_at
      = some ts2
    ∧ (executeDirectTask doc0 true true true res timeoutSec ts1 ts2).doc.completed_at
      = some ts2
    ∧ (executeDirectTask doc0 true true true res timeoutSec ts1 ts2).doc.status
      = (if (executePythonCodeDirect timeoutSec res).code = 0 then "completed"
         else "failed") := by
  simp [executeDirectTask, applyUpdate, buildFinalUpdateData, initialStatusUpdate]

/-- Counterexample to claim C3: when the terminal write fails the handler
still returns HTTP 200 (the failure is logged and swallowed), and HTTP 500
is returned in a case where the terminal write was never attempted (the
initial status write failed) — so 500 does not hold "if and only if" the
terminal write failed. -/
theorem c3_http_counterexample :
    (executeDirectTask ⟨"queued", none, none, none, none, none, none⟩
        true true false (.completed 0 "hi" "") 30 "T1" "T2").httpStatus = 200
    ∧ (executeDirectTask ⟨"queued", none, none, none, none, none, none⟩
        true false true (.completed 0 "hi" "") 30 "T1" "T2").httpStatus = 500 := by
  refine ⟨by decide, by decide⟩

/-- Claim C3 as amended: with the Firestore client available, the handler
returns HTTP 200 whenever it reaches a terminal classification — including
when the terminal write failed (that failure is logged critically and
swallowed) — and returns HTTP 500 exactly when the initial status write
failed. -/
theorem c3_http_status (doc0 : JobDoc) (initialWriteOk finalWriteOk : Bool)
    (res : SpawnResult) (timeoutSec : Nat) (ts1 ts2 : String) :
    (executeDirectTask doc0 true initialWriteOk finalWriteOk res timeoutSec ts1 ts2).httpStatus
      = (if initialWriteOk then 200 else 500) := by
  cases initialWriteOk <;> simp [executeDirectTask]

/-! ## Indexing worker rows -/

/-- Counterexample to claim C9: a `.py` file containing two function
definitions is not split into chunks — it produces exactly one row whose
text is the entire file content. -/
theorem c9_whole_file_counterexample :
    rowsForFile (fun s => s) "ws1" "main.py"
        (some "def f():\n    return 1\n\ndef g():\n    return 2\n")
      = [⟨"def f():\n    return 1\n\ndef g():\n    return 2\n",
          "def f():\n    return 1\n\ndef g():\n    return 2\n", "main.py", "ws1"⟩] := by
  rfl

/-- Claim C9 as amended: no chunking is performed — every indexed file
contributes exactly one row whose text is the entire file content and whose
vector embeds that whole content; files with a non-code extension, failed
downloads, and whitespace-only files contribute no rows. -/
theorem c9_single_whole_file_row {V : Type} (embed : String → V)
    (ws fp fp2 c c2 : String) (hext : isCodeFile fp = true)
    (hne : stripIsEmpty c = false) (hext2 : isCodeFile fp2 = false)
    (hws : stripIsEmpty c2 = true) :
    rowsForFile embed ws fp (some c) = [⟨embed c, c, fp, ws⟩]
    ∧ rowsForFile embed ws fp none = []
    ∧ rowsForFile embed ws fp2 (some c) = []
    ∧ rowsForFile embed ws fp (some c2) = [] := by
  simp [rowsForFile, hext, hne, hext2, hws]

/-- Witness for C9 (amended) at a one-character Python file. -/
theorem c9_single_whole_file_row_witness :
    rowsForFile (fun s => s) "ws" "a.py" (some "x") = [⟨"x", "x", "a.py", "ws"⟩] :=
  (c9_single_whole_file_row (fun s => s) "ws" "a.py" "a.txt" "x" " "
    (by decide) (by decide) (by decide) (by decide)).1

/-! ## Query retrieval fallback -/

/-- Claim C10: if the keyword (FTS) search raises, the call does not fail —
the exception is caught, the skip is logged once, and the combined result
equals the one computed from the vector-search results alone. -/
theorem c10_fts_fallback (vectorResults : List SearchRow) (e : String) :
    codebaseSearchCombine vectorResults (.error e)
      = (dedupeByContent vectorResults, true)
    ∧ (codebaseSearchCombine vectorResults (.error e)).1
      = (codebaseSearchCombine vectorResults (.ok [])).1 := by
  simp [codebaseSearchCombine]

/-! ## Timestamp formatting -/

/-- A fixed-width decimal field has its width as length. -/
theorem length_padDigits (w n : Nat) : (padDigits w n).length = w := by
  simp [padDigits]

/-- The six microsecond digits split into the three millisecond digits
followed by the three sub-millisecond digits. -/
theorem padDigits_six_split (n : Nat) :
    padDigits 6 n = padDigits 3 (n / 1000) ++ padDigits 3 n := by
  have h5 : n / 1000 / 10 ^ 2 = n / 10 ^ 5 := by
    rw [Nat.div_div_eq_div_mul]; norm_num
  have h4 : n / 1000 / 10 ^ 1 = n / 10 ^ 4 := by
    rw [Nat.div_div_eq_div_mul]; norm_num
  have h3 : n / 1000 / 10 ^ 0 = n / 10 ^ 3 := by
    rw [Nat.div_div_eq_div_mul]; norm_num
  show [Nat.digitChar (n / 10 ^ 5 % 10), Nat.digitChar (n / 10 ^ 4 % 10),
        Nat.digitChar (n / 10 ^ 3 % 10), Nat.digitChar (n / 10 ^ 2 % 10),
        Nat.digitChar (n / 10 ^ 1 % 10), Nat.digitChar (n / 10 ^ 0 % 10)]
      = [Nat.digitChar (n / 1000 / 10 ^ 2 % 10), Nat.digitChar (n / 1000 / 10 ^ 1 % 10),
         Nat.digitChar (n / 1000 / 10 ^ 0 % 10), Nat.digitChar (n / 10 ^ 2 % 10),
         Nat.digitChar (n / 10 ^ 1 % 10), Nat.digitChar (n / 10 ^ 0 % 10)]
  rw [h5, h4, h3]

/-- The `strftime` output is the 23-character ISO prefix with millisecond
digits, followed by the three sub-millisecond digits. -/
theorem strftimeIsoMicro_split (dt : PyDateTime) :
    strftimeIsoMicro dt
      = (padDigits 4 dt.year ++ '-' :: padDigits 2 dt.month
          ++ '-' :: padDigits 2 dt.day ++ 'T' :: padDigits 2 dt.hour
          ++ ':' :: padDigits 2 dt.minute ++ ':' :: padDigits 2 dt.second
          ++ '.' :: padDigits 3 (dt.microsecond / 1000))
        ++ padDigits 3 dt.microsecond := by
  unfold strftimeIsoMicro
  rw [padDigits_six_split]
  simp [List.append_assoc]

/-- Claim C8: every timestamp string produced by the worker has the exact
24-character shape `YYYY-MM-DDTHH:mm:ss.sssZ`: `datetime_to_iso8601` (and
`now_iso8601`, which uses the identical format expression) agrees with the
JavaScript `toISOString()` convention for every datetime — the three
fractional digits are the zero-padded `microsecond / 1000` and the string
is suffixed `Z`. -/
theorem c8_toISOString_shape (dt : PyDateTime) :
    datetime_to_iso8601 dt = toISOStringJS dt
    ∧ now_iso8601 dt = toISOStringJS dt
    ∧ (datetime_to_iso8601 dt).length = 24 := by
  have hlenP : (padDigits 4 dt.year ++ '-' :: padDigits 2 dt.month
      ++ '-' :: padDigits 2 dt.day ++ 'T' :: padDigits 2 dt.hour
      ++ ':' :: padDigits 2 dt.minute ++ ':' :: padDigits 2 dt.second
      ++ '.' :: padDigits 3 (dt.microsecond / 1000)).length = 23 := by
    simp [length_padDigits]
  have hlen : (strftimeIsoMicro dt).length = 26 := by
    rw [strftimeIsoMicro_split, List.length_append, hlenP, length_padDigits]
  have htake : (strftimeIsoMicro dt).take ((strftimeIsoMicro dt).length - 3)
      = padDigits 4 dt.year ++ '-' :: padDigits 2 dt.month
        ++ '-' :: padDigits 2 dt.day ++ 'T' :: padDigits 2 dt.hour
        ++ ':' :: padDigits 2 dt.minute ++ ':' :: padDigits 2 dt.second
        ++ '.' :: padDigits 3 (dt.microsecond / 1000) := by
    rw [hlen, strftimeIsoMicro_split]
    exact List.take_left' hlenP
  have hiso : datetime_to_iso8601 dt = toISOStringJS dt := by
    unfold datetime_to_iso8601 toISOStringJS
    rw [htake]
  refine ⟨hiso, hiso, ?_⟩
  rw [hiso]
  unfold toISOStringJS
  show (padDigits 4 dt.year ++ '-' :: padDigits 2 dt.month
      ++ '-' :: padDigits 2 dt.day ++ 'T' :: padDigits 2 dt.hour
      ++ ':' :: padDigits 2 dt.minute ++ ':' :: padDigits 2 dt.second
      ++ '.' :: padDigits 3 (dt.microsecond / 1000) ++ ['Z']).length = 24
  simp [length_padDigits]

end ApeironDev
